import Mathlib

/-!
Verification of the personal-finance tracker server (src/app.js) against its
natural-language specification.

The server is a set of Express request handlers over three PostgreSQL tables
(users, password_resets, transactions) plus an express-session cookie session.
Each handler is a straight-line read/write sequence, so the shallow embedding
below models:

  - each table as a Lean list of rows (a structure per row type);
  - each SQL statement as the corresponding pure list operation
    (SELECT ... WHERE = find?/filter, INSERT ... ON CONFLICT DO UPDATE =
    keyed upsert, DELETE = filter-out, ORDER BY = insertion sort);
  - the session as an explicit state value threaded through handlers;
  - external collaborators exactly as the spec scopes them out: the
    validator capability (isEmail / isMobilePhone) and the bcrypt primitive
    (hash / verify) are parameters of the handlers, and the Twilio send and
    fallible store statements are modelled by explicit failure flags mirroring
    the try/catch structure of each handler;
  - Math.random() as a rational in [0,1), and Date.now() as Nat milliseconds.

Each handler definition is a direct translation of the corresponding
app.js route body, including response status codes and the exact JSON
message strings.
-/

/-- A row of the users table (src/app.js, CREATE TABLE users):
id SERIAL, username/email/mobile TEXT UNIQUE, password TEXT (bcrypt digest),
is_verified BOOLEAN DEFAULT FALSE. -/
structure User where
  id : Nat
  username : String
  email : String
  mobile : String
  password : String
  is_verified : Bool
deriving Repr, DecidableEq

/-- A row of the password_resets table (src/app.js, CREATE TABLE
password_resets): identifier TEXT PRIMARY KEY, code TEXT, expires_at
TIMESTAMP (modelled as Nat milliseconds since epoch). -/
structure ResetRow where
  identifier : String
  code : String
  expires_at : Nat
deriving Repr, DecidableEq

/-- A row of the transactions table (src/app.js, CREATE TABLE transactions):
id SERIAL PRIMARY KEY, user_id INTEGER, type/purpose/category TEXT,
amount NUMERIC (modelled as Int), date DATE (modelled as Nat day number). -/
structure Txn where
  id : Nat
  user_id : Nat
  type : String
  amount : Int
  purpose : String
  category : String
  date : Nat
deriving Repr, DecidableEq

/-- The express-session state visible to the handlers: req.session.user
(set by login) and req.session.resetIdentifier (set by verify-otp). -/
structure SessionState where
  user : Option (Nat × String)
  resetIdentifier : Option String
deriving Repr, DecidableEq

/-- An HTTP response as the caller sees it: status code plus the JSON body,
modelled as its list of string fields in order. -/
structure ApiResponse where
  status : Nat
  body : List (String × String)
deriving Repr, DecidableEq

/-- SELECT code, expires_at FROM password_resets WHERE identifier = $1:
on a PRIMARY KEY (identifier) table this is the first (unique) matching row. -/
def lookupReset (resets : List ResetRow) (identifier : String) : Option ResetRow :=
  resets.find? (fun row => row.identifier == identifier)

/-- INSERT INTO password_resets ... ON CONFLICT (identifier) DO UPDATE SET
code, expires_at (src/app.js lines 121-126): replace the keyed row if present,
else append a new row. -/
def upsertReset : List ResetRow → String → String → Nat → List ResetRow
  | [], identifier, code, expires => [⟨identifier, code, expires⟩]
  | row :: rest, identifier, code, expires =>
    if row.identifier == identifier then ⟨identifier, code, expires⟩ :: rest
    else row :: upsertReset rest identifier code expires

/-- DELETE FROM password_resets WHERE identifier = $1. -/
def deleteReset (resets : List ResetRow) (identifier : String) : List ResetRow :=
  resets.filter (fun row => !(row.identifier == identifier))

/-- The primary-key invariant of the password_resets table: identifiers are
pairwise distinct. -/
def resetIdsNodup (resets : List ResetRow) : Prop :=
  (resets.map ResetRow.identifier).Nodup

/-- The OTP value computed at src/app.js line 117:
Math.floor(100000 + Math.random() * 900000), with Math.random() modelled as
a rational r in [0,1). -/
def otpValue (r : ℚ) : ℤ :=
  Int.floor ((100000 : ℚ) + r * 900000)

/-- The OTP code string: the decimal rendering of otpValue (JS
Number.prototype.toString, which never pads with leading zeros). -/
def otpCodeOfRand (r : ℚ) : String :=
  toString (otpValue r)

/-- The stored expiry computed at src/app.js line 118:
new Date(Date.now() + 10 * 60000), ten minutes from now in milliseconds. -/
def otpExpiresAt (now : Nat) : Nat :=
  now + 10 * 60000

/-- The OTP-ledger write performed by the forgot-password handler once a
user matched (src/app.js lines 117-126): store the freshly generated code
for the identifier with expiry now + 10 minutes, upserting over any prior
row for the same identifier. -/
def requestCode (resets : List ResetRow) (identifier code : String) (now : Nat) :
    List ResetRow :=
  upsertReset resets identifier code (otpExpiresAt now)

/-- POST /api/forgot-password (src/app.js lines 95-149).
Parameters model the external collaborators: isMobilePhone is the validator
capability deciding the lookup column; code is the value produced by the
random generator (see otpCodeOfRand); upsertFails and sendFails model the
INSERT statement and the Twilio send throwing (caught at line 144, returning
500). Returns the response and the resulting password_resets table. -/
def forgotPassword (isMobilePhone : String → Bool) (users : List User)
    (resets : List ResetRow) (identifier code : String) (now : Nat)
    (upsertFails sendFails : Bool) : ApiResponse × List ResetRow :=
  let matched :=
    if isMobilePhone identifier then users.filter (fun u => u.mobile == identifier)
    else users.filter (fun u => u.email == identifier)
  match matched with
  | [] => (⟨200, [("message", "If user exists, code has been sent.")]⟩, resets)
  | _ :: _ =>
    if upsertFails then
      (⟨500, [("error", "Failed to initiate password reset service.")]⟩, resets)
    else
      let resets2 := requestCode resets identifier code now
      if isMobilePhone identifier && sendFails then
        (⟨500, [("error", "Failed to initiate password reset service.")]⟩, resets2)
      else
        (⟨200, [("message", "Verification code sent.")]⟩, resets2)

/-- POST /api/verify-otp (src/app.js lines 265-295). Looks up the reset row;
no row or mismatched code gives 400 invalid; an expired row gives 400
expired; otherwise the session gains resetIdentifier, then the row is
deleted and 200 is returned. deleteFails models the DELETE statement
throwing, caught at line 291 and answered with 500 after the session was
already mutated. Returns response, resulting table, resulting session. -/
def verifyOtp (resets : List ResetRow) (session : SessionState)
    (identifier otpCode : String) (now : Nat) (deleteFails : Bool) :
    ApiResponse × List ResetRow × SessionState :=
  match lookupReset resets identifier with
  | none => (⟨400, [("error", "Invalid verification code.")]⟩, resets, session)
  | some row =>
    if !(row.code == otpCode) then
      (⟨400, [("error", "Invalid verification code.")]⟩, resets, session)
    else if row.expires_at < now then
      (⟨400, [("error", "Verification code has expired.")]⟩, resets, session)
    else
      let session2 : SessionState := ⟨session.user, some identifier⟩
      if deleteFails then
        (⟨500, [("error", "Verification failed.")]⟩, resets, session2)
      else
        (⟨200, [("message", "Code verified. Ready to reset password.")]⟩,
          deleteReset resets identifier, session2)

/-- POST /api/reset-password (src/app.js lines 298-322). Without a session
resetIdentifier the handler answers 401 before touching anything; otherwise
it hashes the new password, updates the user matched by the identifier in
the column chosen by format, and clears the session flag. isEmail is the
validator capability, hash the bcrypt primitive. -/
def resetPassword (isEmail : String → Bool) (hash : String → String)
    (users : List User) (session : SessionState) (password : String) :
    ApiResponse × List User × SessionState :=
  match session.resetIdentifier with
  | none => (⟨401, [("error", "Reset session expired or invalid.")]⟩, users, session)
  | some identifier =>
    let hashed := hash password
    let users2 := users.map (fun u =>
      if (if isEmail identifier then u.email == identifier else u.mobile == identifier)
      then ⟨u.id, u.username, u.email, u.mobile, hashed, u.is_verified⟩ else u)
    (⟨200, [("message", "Password successfully updated.")]⟩, users2,
      ⟨session.user, none⟩)

/-- POST /api/login (src/app.js lines 187-202). SELECT * FROM users WHERE
username = $1 takes rows[0], the first match; bcrypt.compare is the verify
parameter. Success binds the session user; otherwise 401 invalid
credentials. -/
def login (verify : String → String → Bool) (users : List User)
    (session : SessionState) (username password : String) :
    ApiResponse × SessionState :=
  match users.find? (fun u => u.username == username) with
  | some user =>
    if verify password user.password then
      (⟨200, [("message", "Login successful")]⟩,
        ⟨some (user.id, user.username), session.resetIdentifier⟩)
    else
      (⟨401, [("error", "Invalid credentials")]⟩, session)
  | none => (⟨401, [("error", "Invalid credentials")]⟩, session)

/-- POST /api/register (src/app.js lines 205-223). Format checks via the
validator capability, then INSERT INTO users; a unique-constraint violation
(err.code 23505, possible on username, email or mobile) answers 409.
nextId models the SERIAL id the store assigns. -/
def register (isEmail isMobilePhone : String → Bool) (hash : String → String)
    (users : List User) (nextId : Nat)
    (username email mobile password : String) : ApiResponse × List User :=
  if !(isEmail email) then
    (⟨400, [("error", "Invalid email format.")]⟩, users)
  else if !(isMobilePhone mobile) then
    (⟨400, [("error", "Invalid mobile number format.")]⟩, users)
  else if users.any (fun u =>
      u.username == username || u.email == email || u.mobile == mobile) then
    (⟨409, [("error", "Username, email, or mobile already in use.")]⟩, users)
  else
    (⟨201, [("message", "User registered successfully")]⟩,
      users ++ [⟨nextId, username, email, mobile, hash password, false⟩])

/-- One entry of the admin listing: the fields the handler projects out of
each users row (src/app.js lines 169-173). -/
structure AdminUserEntry where
  id : Nat
  username : String
  password_hash : String
deriving Repr, DecidableEq

/-- The JSON body of GET /api/admin/registered-users. -/
structure AdminUsersResponse where
  status : Nat
  total_users : Nat
  users : List AdminUserEntry
deriving Repr, DecidableEq

/-- ORDER BY id ASC comparison for the users table. -/
def userIdLe (a b : User) : Prop := a.id ≤ b.id

instance : DecidableRel userIdLe :=
  fun a b => inferInstanceAs (Decidable (a.id ≤ b.id))

/-- GET /api/admin/registered-users (src/app.js lines 165-183). The route is
registered with no requireLogin middleware, so the session argument is read
by nothing: SELECT id, username, password FROM users ORDER BY id ASC, each
row projected to id, username, password_hash. -/
def adminRegisteredUsers (users : List User) (_session : SessionState) :
    AdminUsersResponse :=
  let sorted := List.insertionSort userIdLe users
  ⟨200, sorted.length, sorted.map (fun u => ⟨u.id, u.username, u.password⟩)⟩

/-- ORDER BY date DESC, id DESC comparison for the transactions table:
a precedes b when a has the later date, or the same date and the larger id. -/
def txnLe (a b : Txn) : Prop :=
  b.date < a.date ∨ (b.date = a.date ∧ b.id ≤ a.id)

instance : DecidableRel txnLe :=
  fun a b => inferInstanceAs (Decidable (b.date < a.date ∨ (b.date = a.date ∧ b.id ≤ a.id)))

instance : IsTotal Txn txnLe :=
  ⟨fun a b => by unfold txnLe; omega⟩

instance : IsTrans Txn txnLe :=
  ⟨fun a b c hab hbc => by unfold txnLe at hab hbc ⊢; omega⟩

/-- SELECT * FROM transactions WHERE user_id = $1 ORDER BY date DESC, id DESC
(src/app.js line 256). -/
def getTransactions (userId : Nat) (store : List Txn) : List Txn :=
  List.insertionSort txnLe (store.filter (fun t => t.user_id == userId))

/-- GET /api/transactions (src/app.js lines 252-262), behind requireLogin
(lines 85-90): 401 with empty body for an unauthenticated session, else the
per-user ordered listing. -/
def getTransactionsHandler (session : SessionState) (store : List Txn) :
    Nat × List Txn :=
  match session.user with
  | none => (401, [])
  | some (uid, _) => (200, getTransactions uid store)

/-- Looking up the upserted identifier finds exactly the fresh row. -/
theorem lookupReset_upsertReset_self (rs : List ResetRow)
    (identifier code : String) (expires : Nat) :
    lookupReset (upsertReset rs identifier code expires) identifier
      = some ⟨identifier, code, expires⟩ := by
  induction rs with
  | nil => simp [upsertReset, lookupReset]
  | cons row rest ih =>
    unfold upsertReset
    by_cases h : row.identifier == identifier
    · simp [h, lookupReset]
    · rw [if_neg h]
      unfold lookupReset at ih ⊢
      have hf : (row.identifier == identifier) = false := by simpa using h
      simp only [List.find?, hf]
      exact ih

/-- Looking up a just-deleted identifier finds nothing. -/
theorem lookupReset_deleteReset_self (rs : List ResetRow) (identifier : String) :
    lookupReset (deleteReset rs identifier) identifier = none := by
  unfold lookupReset deleteReset
  rw [List.find?_eq_none]
  intro x hx
  have hmem := List.of_mem_filter hx
  simp only [Bool.not_eq_eq_eq_not, Bool.not_true] at hmem
  simp [hmem]

/-- Every identifier present after an upsert is the upserted key or was
already present. -/
theorem mem_upsertReset_ids (rs : List ResetRow) (identifier code : String)
    (expires : Nat) (x : String)
    (hx : x ∈ (upsertReset rs identifier code expires).map ResetRow.identifier) :
    x = identifier ∨ x ∈ rs.map ResetRow.identifier := by
  induction rs with
  | nil => simpa [upsertReset] using hx
  | cons row rest ih =>
    unfold upsertReset at hx
    by_cases h : row.identifier == identifier
    · simp only [h, if_true] at hx
      rcases List.mem_cons.mp hx with h1 | h1
      · exact Or.inl h1
      · exact Or.inr (List.mem_cons.mpr (Or.inr h1))
    · simp only [h, if_false, Bool.false_eq_true, List.map_cons] at hx
      rcases List.mem_cons.mp hx with h1 | h1
      · exact Or.inr (by simp [h1])
      · rcases ih h1 with h2 | h2
        · exact Or.inl h2
        · exact Or.inr (List.mem_cons.mpr (Or.inr h2))

/-- The upsert preserves the primary-key invariant of the password_resets
table. -/
theorem resetIdsNodup_upsertReset (rs : List ResetRow)
    (identifier code : String) (expires : Nat) (h : resetIdsNodup rs) :
    resetIdsNodup (upsertReset rs identifier code expires) := by
  induction rs with
  | nil => simp [upsertReset, resetIdsNodup]
  | cons row rest ih =>
    unfold resetIdsNodup at h
    simp only [List.map_cons, List.nodup_cons] at h
    obtain ⟨hrow, hrest⟩ := h
    unfold upsertReset
    by_cases hb : row.identifier == identifier
    · have hid : row.identifier = identifier := by simpa using hb
      unfold resetIdsNodup
      simp only [hb, if_true, List.map_cons, List.nodup_cons]
      exact ⟨hid ▸ hrow, hrest⟩
    · have ih2 := ih hrest
      unfold resetIdsNodup at ih2 ⊢
      simp only [hb, if_false, Bool.false_eq_true, List.map_cons, List.nodup_cons]
      refine ⟨?_, ih2⟩
      intro hmem
      rcases mem_upsertReset_ids rest identifier code expires _ hmem with h1 | h1
      · exact absurd h1 (by simpa using hb)
      · exact hrow h1

/-- Under the primary-key invariant, exactly one row carries the upserted
identifier afterwards, namely the fresh one. -/
theorem filter_upsertReset_self (rs : List ResetRow)
    (identifier code : String) (expires : Nat) (h : resetIdsNodup rs) :
    (upsertReset rs identifier code expires).filter
        (fun row => row.identifier == identifier)
      = [⟨identifier, code, expires⟩] := by
  induction rs with
  | nil => simp [upsertReset]
  | cons row rest ih =>
    unfold resetIdsNodup at h
    simp only [List.map_cons, List.nodup_cons] at h
    obtain ⟨hrow, hrest⟩ := h
    unfold upsertReset
    by_cases hb : row.identifier == identifier
    · have hid : row.identifier = identifier := by simpa using hb
      rw [if_pos hb]
      have hnone : List.filter (fun r : ResetRow => r.identifier == identifier) rest
          = [] := by
        apply List.filter_eq_nil_iff.mpr
        intro a ha hpa
        apply hrow
        have h3 : row.identifier = a.identifier := by
          have haid : a.identifier = identifier := by simpa using hpa
          rw [hid, haid]
        rw [h3]
        exact List.mem_map.mpr ⟨a, ha, rfl⟩
      simp [List.filter_cons, hnone]
    · rw [if_neg hb]
      have hf : (row.identifier == identifier) = false := by simpa using hb
      simp only [List.filter_cons, hf, Bool.false_eq_true, if_false]
      exact ih hrest

/-- Two sorted lists that are permutations of each other and whose sort keys
are duplicate-free are equal: the SQL ORDER BY result is determined by the
row multiset, independent of insertion order. -/
theorem eq_of_perm_of_sorted_of_nodup_key {α κ : Type} (r : α → α → Prop)
    (key : α → κ)
    (hanti : ∀ a b, r a b → r b a → key a = key b) :
    ∀ (l1 l2 : List α), l1.Perm l2 → l1.Sorted r → l2.Sorted r →
      (l1.map key).Nodup → l1 = l2 := by
  intro l1
  induction l1 with
  | nil =>
    intro l2 hp _ _ _
    exact hp.nil_eq
  | cons a t1 ih =>
    intro l2 hp hs1 hs2 hn
    cases l2 with
    | nil => exact absurd hp.symm.nil_eq (by simp)
    | cons b t2 =>
      by_cases hab : a = b
      · subst hab
        have hp2 := hp.cons_inv
        obtain ⟨-, hs1t⟩ := List.sorted_cons.mp hs1
        obtain ⟨-, hs2t⟩ := List.sorted_cons.mp hs2
        have hnt : (t1.map key).Nodup := by
          simp only [List.map_cons, List.nodup_cons] at hn
          exact hn.2
        rw [ih t2 hp2 hs1t hs2t hnt]
      · have ha2 : a ∈ t2 := by
          have := hp.subset (List.mem_cons_self a t1)
          rcases List.mem_cons.mp this with h1 | h1
          · exact absurd h1 hab
          · exact h1
        have hb1 : b ∈ t1 := by
          have := hp.symm.subset (List.mem_cons_self b t2)
          rcases List.mem_cons.mp this with h1 | h1
          · exact absurd h1.symm hab
          · exact h1
        have hrab : r a b := (List.sorted_cons.mp hs1).1 b hb1
        have hrba : r b a := (List.sorted_cons.mp hs2).1 a ha2
        have hkey : key a = key b := hanti a b hrab hrba
        simp only [List.map_cons, List.nodup_cons] at hn
        exact absurd (hkey ▸ List.mem_map.mpr ⟨b, hb1, rfl⟩) hn.1

/-- The date-then-id comparison identifies ids on mutually comparable rows. -/
theorem txnLe_antisymm_id (a b : Txn) (hab : txnLe a b) (hba : txnLe b a) :
    a.id = b.id := by
  unfold txnLe at hab hba
  omega

/-- Demo validator capability: recognises the demonstration email address. -/
def demoIsEmail : String → Bool := fun s => s == "alice@x.com"

/-- Demo validator capability: recognises the demonstration mobile number. -/
def demoIsMobile : String → Bool := fun s => s == "+15551234567"

/-- Demo hashing primitive standing in for bcrypt.hash in concrete runs. -/
def demoHash : String → String := fun p => "H" ++ p

/-- Demo comparison primitive standing in for bcrypt.compare in concrete
runs; it verifies exactly the digests demoHash produces. -/
def demoVerify : String → String → Bool := fun p d => d == "H" ++ p

/-- C1: the claim states that POST /api/forgot-password answers identically
whether or not the identifier matches a stored user. The code does not: with
a matching user the body is message "Verification code sent." (src/app.js
line 142), without one it is message "If user exists, code has been sent."
(line 109), so the two runs are distinguishable by body content, contradicting
the enumeration-resistance the code itself announces in its comments. This
theorem evaluates both runs of the handler at the failing input (identifier
+15551234567, present in one store and absent from the other) and shows the
responses differ. -/
theorem C1_divergence :
    (forgotPassword demoIsMobile
        [⟨1, "alice", "alice@x.com", "+15551234567", "Hpw1", false⟩]
        [] "+15551234567" "123456" 0 false false).1
      ≠ (forgotPassword demoIsMobile [] []
        "+15551234567" "123456" 0 false false).1 := by decide

/-- C2: GET /api/admin/registered-users reads nothing from the session (the
route has no requireLogin middleware), so its response is the same for every
caller, and for every user row in the store the response body contains that
row's id, username and stored password digest, with status 200. -/
theorem C2_admin_exposes_all_users (users : List User)
    (s1 s2 : SessionState) (u : User) (hu : u ∈ users) :
    adminRegisteredUsers users s1 = adminRegisteredUsers users s2 ∧
    (adminRegisteredUsers users s1).status = 200 ∧
    (⟨u.id, u.username, u.password⟩ : AdminUserEntry)
      ∈ (adminRegisteredUsers users s1).users := by
  refine ⟨rfl, rfl, ?_⟩
  simp only [adminRegisteredUsers]
  exact List.mem_map.mpr ⟨u, (List.mem_insertionSort userIdLe).mpr hu, rfl⟩

/-- Witness for C2 at a concrete store and two concrete sessions, one
anonymous and one authenticated as another user. -/
theorem C2_witness :
    (⟨1, "alice", "alice@x.com", "+15551234567", "Hpw1", false⟩ : User)
      ∈ [(⟨1, "alice", "alice@x.com", "+15551234567", "Hpw1", false⟩ : User)] ∧
    (adminRegisteredUsers
        [⟨1, "alice", "alice@x.com", "+15551234567", "Hpw1", false⟩]
        ⟨none, none⟩
      = adminRegisteredUsers
        [⟨1, "alice", "alice@x.com", "+15551234567", "Hpw1", false⟩]
        ⟨some (2, "bob"), none⟩ ∧
    (adminRegisteredUsers
        [⟨1, "alice", "alice@x.com", "+15551234567", "Hpw1", false⟩]
        ⟨none, none⟩).status = 200 ∧
    (⟨1, "alice", "Hpw1"⟩ : AdminUserEntry)
      ∈ (adminRegisteredUsers
        [⟨1, "alice", "alice@x.com", "+15551234567", "Hpw1", false⟩]
        ⟨none, none⟩).users) :=
  ⟨by decide, C2_admin_exposes_all_users
    [⟨1, "alice", "alice@x.com", "+15551234567", "Hpw1", false⟩]
    ⟨none, none⟩ ⟨some (2, "bob"), none⟩
    ⟨1, "alice", "alice@x.com", "+15551234567", "Hpw1", false⟩ (by decide)⟩

/-- C6: when the stored row for the identifier carries exactly the submitted
code but the current time is strictly past expires_at, POST /api/verify-otp
answers 400 "Verification code has expired." (not Ok and not the invalid-code
error) and leaves the ledger and session unchanged. -/
theorem C6_expired_code (rs : List ResetRow) (session : SessionState)
    (identifier code : String) (now : Nat) (row : ResetRow) (deleteFails : Bool)
    (hlook : lookupReset rs identifier = some row)
    (hcode : row.code = code)
    (hexp : row.expires_at < now) :
    verifyOtp rs session identifier code now deleteFails
      = (⟨400, [("error", "Verification code has expired.")]⟩, rs, session) := by
  unfold verifyOtp
  rw [hlook]
  subst hcode
  simp [hexp]

/-- Witness for C6: a matching code whose expiry (100) is strictly before the
current time (101). -/
theorem C6_witness :
    lookupReset [⟨"alice@x.com", "123456", 100⟩] "alice@x.com"
      = some ⟨"alice@x.com", "123456", 100⟩ ∧
    (⟨"alice@x.com", "123456", 100⟩ : ResetRow).code = "123456" ∧
    (⟨"alice@x.com", "123456", 100⟩ : ResetRow).expires_at < 101 ∧
    verifyOtp [⟨"alice@x.com", "123456", 100⟩] ⟨none, none⟩
        "alice@x.com" "123456" 101 false
      = (⟨400, [("error", "Verification code has expired.")]⟩,
         [⟨"alice@x.com", "123456", 100⟩], ⟨none, none⟩) :=
  ⟨by decide, rfl, by decide,
    C6_expired_code [⟨"alice@x.com", "123456", 100⟩] ⟨none, none⟩
      "alice@x.com" "123456" 101 ⟨"alice@x.com", "123456", 100⟩ false
      (by decide) rfl (by decide)⟩

/-- C7: POST /api/reset-password checked the session flag first, so in any
session with no resetIdentifier (no successful verify-otp happened) it
answers 401 "Reset session expired or invalid." and returns before touching
the users table or the session. -/
theorem C7_reset_without_permission (isEmail : String → Bool)
    (hash : String → String) (users : List User) (session : SessionState)
    (password : String)
    (hperm : session.resetIdentifier = none) :
    resetPassword isEmail hash users session password
      = (⟨401, [("error", "Reset session expired or invalid.")]⟩,
         users, session) := by
  unfold resetPassword
  rw [hperm]

/-- Witness for C7: a session that is even logged in but holds no reset
permission. -/
theorem C7_witness :
    (⟨some (1, "alice"), none⟩ : SessionState).resetIdentifier = none ∧
    resetPassword demoIsEmail demoHash
        [⟨1, "alice", "alice@x.com", "+15551234567", "Hpw1", false⟩]
        ⟨some (1, "alice"), none⟩ "pw2"
      = (⟨401, [("error", "Reset session expired or invalid.")]⟩,
         [⟨1, "alice", "alice@x.com", "+15551234567", "Hpw1", false⟩],
         ⟨some (1, "alice"), none⟩) :=
  ⟨rfl, C7_reset_without_permission _ _ _ _ _ rfl⟩

/-- C10: in POST /api/verify-otp the session flag is assigned (line 284)
before the DELETE statement runs (line 287); if the DELETE throws, the catch
answers 500 "Verification failed." while the session already holds the reset
permission and the password_resets table is unchanged, so the matched row is
still live. -/
theorem C10_delete_failure_state (rs : List ResetRow) (session : SessionState)
    (identifier code : String) (now : Nat) (row : ResetRow)
    (hlook : lookupReset rs identifier = some row)
    (hcode : row.code = code)
    (hexp : ¬ row.expires_at < now) :
    verifyOtp rs session identifier code now true
      = (⟨500, [("error", "Verification failed.")]⟩, rs,
         ⟨session.user, some identifier⟩) := by
  unfold verifyOtp
  rw [hlook]
  subst hcode
  simp [hexp]

/-- Witness for C10: a live matching code whose DELETE fails; the caller sees
500 yet the session gained the permission and the row is still there. -/
theorem C10_witness :
    lookupReset [⟨"+15551234567", "654321", 600000⟩] "+15551234567"
      = some ⟨"+15551234567", "654321", 600000⟩ ∧
    ¬ (⟨"+15551234567", "654321", 600000⟩ : ResetRow).expires_at < 500 ∧
    verifyOtp [⟨"+15551234567", "654321", 600000⟩] ⟨none, none⟩
        "+15551234567" "654321" 500 true
      = (⟨500, [("error", "Verification failed.")]⟩,
         [⟨"+15551234567", "654321", 600000⟩], ⟨none, some "+15551234567"⟩) :=
  ⟨by decide, by decide,
    C10_delete_failure_state [⟨"+15551234567", "654321", 600000⟩] ⟨none, none⟩
      "+15551234567" "654321" 500 ⟨"+15551234567", "654321", 600000⟩
      (by decide) rfl (by decide)⟩

/-- C4: after the forgot-password flow stores a fresh code for an identifier,
a first verify-otp with exactly that code at a time not past expiry answers
200 and deletes the ledger row, and any second verify-otp with the same code
afterwards answers 400 "Invalid verification code.": the code is single-use. -/
theorem C4_code_single_use (rs : List ResetRow) (session : SessionState)
    (identifier code : String) (now t1 t2 : Nat)
    (h1 : ¬ otpExpiresAt now < t1) :
    (verifyOtp (requestCode rs identifier code now) session
        identifier code t1 false).1
      = ⟨200, [("message", "Code verified. Ready to reset password.")]⟩ ∧
    lookupReset (verifyOtp (requestCode rs identifier code now) session
        identifier code t1 false).2.1 identifier = none ∧
    (verifyOtp
        (verifyOtp (requestCode rs identifier code now) session
          identifier code t1 false).2.1
        (verifyOtp (requestCode rs identifier code now) session
          identifier code t1 false).2.2
        identifier code t2 false).1
      = ⟨400, [("error", "Invalid verification code.")]⟩ := by
  have hlook : lookupReset (requestCode rs identifier code now) identifier
      = some ⟨identifier, code, otpExpiresAt now⟩ :=
    lookupReset_upsertReset_self rs identifier code (otpExpiresAt now)
  have hrun : verifyOtp (requestCode rs identifier code now) session
      identifier code t1 false
      = (⟨200, [("message", "Code verified. Ready to reset password.")]⟩,
         deleteReset (requestCode rs identifier code now) identifier,
         ⟨session.user, some identifier⟩) := by
    unfold verifyOtp
    rw [hlook]
    simp [h1]
  rw [hrun]
  refine ⟨rfl, lookupReset_deleteReset_self _ _, ?_⟩
  unfold verifyOtp
  rw [lookupReset_deleteReset_self]

/-- Witness for C4: an empty ledger, code issued at time 0, first verify at
time 1000 (before the 600000 ms expiry), second verify at time 2000. -/
theorem C4_witness :
    ¬ otpExpiresAt 0 < 1000 ∧
    ((verifyOtp (requestCode [] "alice@x.com" "123456" 0) ⟨none, none⟩
        "alice@x.com" "123456" 1000 false).1
      = ⟨200, [("message", "Code verified. Ready to reset password.")]⟩ ∧
    lookupReset (verifyOtp (requestCode [] "alice@x.com" "123456" 0)
        ⟨none, none⟩ "alice@x.com" "123456" 1000 false).2.1 "alice@x.com"
      = none ∧
    (verifyOtp
        (verifyOtp (requestCode [] "alice@x.com" "123456" 0) ⟨none, none⟩
          "alice@x.com" "123456" 1000 false).2.1
        (verifyOtp (requestCode [] "alice@x.com" "123456" 0) ⟨none, none⟩
          "alice@x.com" "123456" 1000 false).2.2
        "alice@x.com" "123456" 2000 false).1
      = ⟨400, [("error", "Invalid verification code.")]⟩) :=
  ⟨by decide, C4_code_single_use [] ⟨none, none⟩ "alice@x.com" "123456"
    0 1000 2000 (by decide)⟩

/-- C5: a second requestCode for the same identifier upserts over the first
row, so afterwards the table still satisfies the primary-key invariant,
exactly one row carries that identifier (holding the second code), and
verify-otp with the first, superseded code answers 400 "Invalid verification
code.". -/
theorem C5_upsert_supersedes (rs : List ResetRow) (session : SessionState)
    (identifier c1 c2 : String) (now1 now2 t : Nat)
    (hnodup : resetIdsNodup rs) (hne : c1 ≠ c2) :
    resetIdsNodup
      (requestCode (requestCode rs identifier c1 now1) identifier c2 now2) ∧
    (requestCode (requestCode rs identifier c1 now1) identifier c2 now2).filter
        (fun row => row.identifier == identifier)
      = [⟨identifier, c2, otpExpiresAt now2⟩] ∧
    (verifyOtp (requestCode (requestCode rs identifier c1 now1)
        identifier c2 now2) session identifier c1 t false).1
      = ⟨400, [("error", "Invalid verification code.")]⟩ := by
  have hnodup1 :=
    resetIdsNodup_upsertReset rs identifier c1 (otpExpiresAt now1) hnodup
  refine ⟨resetIdsNodup_upsertReset _ identifier c2 (otpExpiresAt now2) hnodup1,
    filter_upsertReset_self _ identifier c2 (otpExpiresAt now2) hnodup1, ?_⟩
  have hlook : lookupReset
      (requestCode (requestCode rs identifier c1 now1) identifier c2 now2)
      identifier = some ⟨identifier, c2, otpExpiresAt now2⟩ :=
    lookupReset_upsertReset_self _ identifier c2 (otpExpiresAt now2)
  unfold verifyOtp
  rw [hlook]
  have hne2 : c2 ≠ c1 := fun h => hne h.symm
  have hf : (c2 == c1) = false := beq_eq_false_iff_ne.mpr hne2
  simp [hf]

/-- Witness for C5: two codes issued for the same identifier on an empty
ledger; the first code no longer verifies. -/
theorem C5_witness :
    resetIdsNodup ([] : List ResetRow) ∧ "111111" ≠ "222222" ∧
    (resetIdsNodup (requestCode (requestCode [] "alice@x.com" "111111" 0)
        "alice@x.com" "222222" 5) ∧
    (requestCode (requestCode [] "alice@x.com" "111111" 0)
        "alice@x.com" "222222" 5).filter
        (fun row => row.identifier == "alice@x.com")
      = [⟨"alice@x.com", "222222", otpExpiresAt 5⟩] ∧
    (verifyOtp (requestCode (requestCode [] "alice@x.com" "111111" 0)
        "alice@x.com" "222222" 5) ⟨none, none⟩
        "alice@x.com" "111111" 10 false).1
      = ⟨400, [("error", "Invalid verification code.")]⟩) :=
  ⟨by simp [resetIdsNodup], by decide,
    C5_upsert_supersedes [] ⟨none, none⟩ "alice@x.com" "111111" "222222"
      0 5 10 (by simp [resetIdsNodup]) (by decide)⟩

/-- C3 counterexample: the claim says the OTP value space is
[000000, 999999] with leading zeros permitted, but
Math.floor(100000 + Math.random() * 900000) can never produce the value 0
(code "000000"): no randomness r in [0,1) reaches any value below 100000. -/
theorem C3_counterexample :
    ¬ ∃ r : ℚ, 0 ≤ r ∧ r < 1 ∧ otpValue r = 0 := by
  rintro ⟨r, hr0, -, hv⟩
  have hlo : (100000 : ℤ) ≤ otpValue r := by
    unfold otpValue
    rw [Int.le_floor]
    push_cast
    nlinarith
  omega

/-- C3 amended: every code produced by requestCode is a 6-digit decimal
string whose numeric value lies in [100000, 999999] (so leading zeros never
occur and the distribution is over the 900000-value space, not the claimed
1000000-value space), and the stored expiry is now + 10 minutes
(600000 ms). -/
theorem C3_generator_range (r : ℚ) (now : Nat) (h0 : 0 ≤ r) (h1 : r < 1) :
    100000 ≤ otpValue r ∧ otpValue r ≤ 999999 ∧
    (Nat.digits 10 (otpValue r).toNat).length = 6 ∧
    otpExpiresAt now = now + 600000 := by
  have hlo : (100000 : ℤ) ≤ otpValue r := by
    unfold otpValue
    rw [Int.le_floor]
    push_cast
    nlinarith
  have hhi : otpValue r ≤ 999999 := by
    have hlt : otpValue r < 1000000 := by
      unfold otpValue
      rw [Int.floor_lt]
      push_cast
      nlinarith
    omega
  refine ⟨hlo, hhi, ?_, rfl⟩
  have hn1 : 100000 ≤ (otpValue r).toNat := by omega
  have hn2 : (otpValue r).toNat < 1000000 := by omega
  have hne : (otpValue r).toNat ≠ 0 := by omega
  rw [Nat.digits_len 10 _ (by norm_num) hne]
  have hlog : Nat.log 10 (otpValue r).toNat = 5 := by
    apply Nat.log_eq_of_pow_le_of_lt_pow
    · norm_num
      omega
    · norm_num
      omega
  omega

/-- Witness for C3 at randomness 0: the produced value is 100000, a 6-digit
code with expiry 600000 ms after a current time of 7. -/
theorem C3_witness :
    (0 : ℚ) ≤ 0 ∧ (0 : ℚ) < 1 ∧
    (100000 ≤ otpValue 0 ∧ otpValue 0 ≤ 999999 ∧
    (Nat.digits 10 (otpValue 0).toNat).length = 6 ∧
    otpExpiresAt 7 = 7 + 600000) :=
  ⟨le_refl 0, zero_lt_one, C3_generator_range 0 7 (le_refl 0) zero_lt_one⟩

/-- C8: a registration accepted with 201 (well-formed email and mobile, no
uniqueness conflict) is followed by a successful login with the same
username and password, and, for any store, login against a found user whose
stored digest does not verify the submitted password answers 401
"Invalid credentials". The bcrypt primitive is the external collaborator
(hash, verify) with its assumed contract that a fresh hash verifies. -/
theorem C8_register_login (isEmail isMobilePhone : String → Bool)
    (hash : String → String) (verify : String → String → Bool)
    (hverify : ∀ p, verify p (hash p) = true)
    (users : List User) (nextId : Nat) (session : SessionState)
    (username email mobile password : String)
    (hemail : isEmail email = true) (hmobile : isMobilePhone mobile = true)
    (hfresh : ∀ u ∈ users,
      u.username ≠ username ∧ u.email ≠ email ∧ u.mobile ≠ mobile) :
    (register isEmail isMobilePhone hash users nextId
        username email mobile password).1.status = 201 ∧
    (login verify (register isEmail isMobilePhone hash users nextId
        username email mobile password).2 session username password).1
      = ⟨200, [("message", "Login successful")]⟩ ∧
    (∀ (users2 : List User) (session2 : SessionState) (uname pw : String)
        (u : User),
      users2.find? (fun v => v.username == uname) = some u →
      verify pw u.password = false →
      (login verify users2 session2 uname pw).1
        = ⟨401, [("error", "Invalid credentials")]⟩) := by
  have hany : (users.any (fun u =>
      u.username == username || u.email == email || u.mobile == mobile))
      = false := by
    rw [List.any_eq_false]
    intro u hu
    obtain ⟨h1, h2, h3⟩ := hfresh u hu
    simp [h1, h2, h3]
  have hreg : register isEmail isMobilePhone hash users nextId
      username email mobile password
      = (⟨201, [("message", "User registered successfully")]⟩,
         users ++ [⟨nextId, username, email, mobile, hash password, false⟩]) := by
    unfold register
    simp [hemail, hmobile, hany]
  have hnone : users.find? (fun v => v.username == username) = none := by
    rw [List.find?_eq_none]
    intro u hu
    simp [(hfresh u hu).1]
  have hfind : (users ++
      [(⟨nextId, username, email, mobile, hash password, false⟩ : User)]).find?
      (fun v => v.username == username)
      = some ⟨nextId, username, email, mobile, hash password, false⟩ := by
    rw [List.find?_append, hnone]
    simp
  refine ⟨by rw [hreg], ?_, ?_⟩
  · rw [hreg]
    unfold login
    rw [hfind]
    simp [hverify]
  · intro users2 session2 uname pw u hfindu hver
    unfold login
    rw [hfindu]
    simp [hver]

/-- Witness for C8: registering alice on an empty store then logging in
succeeds, and logging in as a stored user bob with a password whose digest
does not verify answers 401. -/
theorem C8_witness :
    (register demoIsEmail demoIsMobile demoHash [] 1
        "alice" "alice@x.com" "+15551234567" "pw1").1.status = 201 ∧
    (login demoVerify (register demoIsEmail demoIsMobile demoHash [] 1
        "alice" "alice@x.com" "+15551234567" "pw1").2 ⟨none, none⟩
        "alice" "pw1").1 = ⟨200, [("message", "Login successful")]⟩ ∧
    (login demoVerify [⟨7, "bob", "bob@x.com", "+15550001111", "Hpw9", false⟩]
        ⟨none, none⟩ "bob" "wrong").1
      = ⟨401, [("error", "Invalid credentials")]⟩ := by
  have h := C8_register_login demoIsEmail demoIsMobile demoHash demoVerify
    (fun p => beq_self_eq_true ("H" ++ p)) [] 1 ⟨none, none⟩
    "alice" "alice@x.com" "+15551234567" "pw1" rfl rfl
    (fun u hu => absurd hu (List.not_mem_nil u))
  exact ⟨h.1, h.2.1,
    h.2.2 [⟨7, "bob", "bob@x.com", "+15550001111", "Hpw9", false⟩]
      ⟨none, none⟩ "bob" "wrong"
      ⟨7, "bob", "bob@x.com", "+15550001111", "Hpw9", false⟩
      (by decide) (by decide)⟩

/-- C9: for an authenticated session, GET /api/transactions answers 200 with
exactly the caller's rows (the list is a permutation of the user_id filter
of the store), sorted by date descending then id descending, and the answer
is the same for any insertion order (any permutation) of the store, given
the primary-key uniqueness of transaction ids. -/
theorem C9_user_scoped_ordered (session : SessionState) (uid : Nat)
    (uname : String) (store store2 : List Txn)
    (hauth : session.user = some (uid, uname))
    (hids : (store.map Txn.id).Nodup)
    (hperm : store.Perm store2) :
    (getTransactionsHandler session store).1 = 200 ∧
    (getTransactionsHandler session store).2.Perm
      (store.filter (fun t => t.user_id == uid)) ∧
    List.Sorted txnLe (getTransactionsHandler session store).2 ∧
    getTransactionsHandler session store2
      = getTransactionsHandler session store := by
  have hhandler : getTransactionsHandler session store
      = (200, getTransactions uid store) := by
    unfold getTransactionsHandler
    rw [hauth]
  have hhandler2 : getTransactionsHandler session store2
      = (200, getTransactions uid store2) := by
    unfold getTransactionsHandler
    rw [hauth]
  rw [hhandler, hhandler2]
  have hsorted : ∀ l : List Txn,
      List.Sorted txnLe (List.insertionSort txnLe l) :=
    fun l => List.sorted_insertionSort txnLe l
  refine ⟨rfl, List.perm_insertionSort txnLe _, hsorted _, ?_⟩
  have hfilperm : (store2.filter (fun t => t.user_id == uid)).Perm
      (store.filter (fun t => t.user_id == uid)) :=
    hperm.symm.filter _
  have hnodup2 : (store2.map Txn.id).Nodup :=
    (hperm.map Txn.id).nodup_iff.mp hids
  have hfilnodup : ((store2.filter (fun t => t.user_id == uid)).map
      Txn.id).Nodup :=
    List.Nodup.sublist ((List.filter_sublist store2).map Txn.id) hnodup2
  have hsortnodup : ((getTransactions uid store2).map Txn.id).Nodup :=
    ((List.perm_insertionSort txnLe _).map Txn.id).nodup_iff.mpr hfilnodup
  have heq : getTransactions uid store2 = getTransactions uid store := by
    apply eq_of_perm_of_sorted_of_nodup_key txnLe Txn.id txnLe_antisymm_id
    · exact ((List.perm_insertionSort txnLe _).trans hfilperm).trans
        (List.perm_insertionSort txnLe _).symm
    · exact hsorted _
    · exact hsorted _
    · exact hsortnodup
  rw [heq]

/-- Witness for C9: a three-row store (two rows for user 1, one for user 2,
dates giving both a date tie broken by id and a later date), queried with an
authenticated session under a reordering of the store. -/
theorem C9_witness :
    (⟨some (1, "alice"), none⟩ : SessionState).user = some (1, "alice") ∧
    (([⟨1, 1, "income", 5, "salary", "salary", 10⟩,
       ⟨2, 2, "expense", 3, "rent", "rent", 10⟩,
       ⟨3, 1, "expense", 2, "food", "food", 11⟩] : List Txn).map
       Txn.id).Nodup ∧
    ([⟨1, 1, "income", 5, "salary", "salary", 10⟩,
      ⟨2, 2, "expense", 3, "rent", "rent", 10⟩,
      ⟨3, 1, "expense", 2, "food", "food", 11⟩] : List Txn).Perm
      [⟨3, 1, "expense", 2, "food", "food", 11⟩,
       ⟨1, 1, "income", 5, "salary", "salary", 10⟩,
       ⟨2, 2, "expense", 3, "rent", "rent", 10⟩] ∧
    ((getTransactionsHandler ⟨some (1, "alice"), none⟩
        [⟨1, 1, "income", 5, "salary", "salary", 10⟩,
         ⟨2, 2, "expense", 3, "rent", "rent", 10⟩,
         ⟨3, 1, "expense", 2, "food", "food", 11⟩]).1 = 200 ∧
    (getTransactionsHandler ⟨some (1, "alice"), none⟩
        [⟨1, 1, "income", 5, "salary", "salary", 10⟩,
         ⟨2, 2, "expense", 3, "rent", "rent", 10⟩,
         ⟨3, 1, "expense", 2, "food", "food", 11⟩]).2.Perm
      (([⟨1, 1, "income", 5, "salary", "salary", 10⟩,
         ⟨2, 2, "expense", 3, "rent", "rent", 10⟩,
         ⟨3, 1, "expense", 2, "food", "food", 11⟩] : List Txn).filter
        (fun t => t.user_id == 1)) ∧
    List.Sorted txnLe (getTransactionsHandler ⟨some (1, "alice"), none⟩
        [⟨1, 1, "income", 5, "salary", "salary", 10⟩,
         ⟨2, 2, "expense", 3, "rent", "rent", 10⟩,
         ⟨3, 1, "expense", 2, "food", "food", 11⟩]).2 ∧
    getTransactionsHandler ⟨some (1, "alice"), none⟩
        [⟨3, 1, "expense", 2, "food", "food", 11⟩,
         ⟨1, 1, "income", 5, "salary", "salary", 10⟩,
         ⟨2, 2, "expense", 3, "rent", "rent", 10⟩]
      = getTransactionsHandler ⟨some (1, "alice"), none⟩
        [⟨1, 1, "income", 5, "salary", "salary", 10⟩,
         ⟨2, 2, "expense", 3, "rent", "rent", 10⟩,
         ⟨3, 1, "expense", 2, "food", "food", 11⟩]) :=
  ⟨rfl, by decide, by decide,
    C9_user_scoped_ordered ⟨some (1, "alice"), none⟩ 1 "alice"
      [⟨1, 1, "income", 5, "salary", "salary", 10⟩,
       ⟨2, 2, "expense", 3, "rent", "rent", 10⟩,
       ⟨3, 1, "expense", 2, "food", "food", 11⟩]
      [⟨3, 1, "expense", 2, "food", "food", 11⟩,
       ⟨1, 1, "income", 5, "salary", "salary", 10⟩,
       ⟨2, 2, "expense", 3, "rent", "rent", 10⟩]
      rfl (by decide) (by decide)⟩
